import Mathlib

/-
Verification development for a register-level driver of the TCS34725 RGBC
color sensor (a single MicroPython source file, `tcs34725.py`).

Modelling conventions:
* Bus writes are traced: each successful write is recorded as a `Write`
  carrying the command byte put on the bus and the single data byte.
* Register names are a finite inductive type `RegName`; it contains every
  key of the `REGISTERS` dictionary of the source plus the (misspelled)
  names that callers inside the source actually pass, so that the lookup
  failures of the source are representable.
* Python real arithmetic (floats) is modelled exactly over `ℚ`; Python
  `int(...)` applied to a number truncates toward zero (`pyInt`).
* Register state, where a claim needs it, is a function `Nat → Nat` from
  register address to stored byte; a `Write` with command byte `cb`
  targets register `cb % 0x20` (the low five address bits of the command).
-/

namespace TCS34725

/-- Register names. The first block are exactly the keys of the `REGISTERS`
dictionary of the source (lines 3 to 27). The second block are names that
methods of the driver pass to `__sendCommand` or `__readRegister` but that
are not keys of `REGISTERS` (the threshold accessors use `AILT` and `AIHT`,
and `getColor` uses `CDATA`, `RDATA`, `GDATA`, `BDATA`). -/
inductive RegName where
  | ENABLE | ATIME | WTIME | AILTL | AILTH | AIHTL | AIHTH | PERS | CONFIG
  | CONTROL | ID | STATUS | CDATAL | CDATAH | RDATAL | RDATAH | GDATAL
  | GDATAH | BDATAL | BDATAH | CLRINT
  | AILT | AIHT | CDATA | RDATA | GDATA | BDATA
deriving DecidableEq

/-- The `REGISTERS` dictionary of the source: name, address, read/write bits
(`0b11` read-write, `0b10` read-only). -/
def REGISTERS : List (RegName × Nat × Nat) :=
  [(.ENABLE, 0x00, 0b11), (.ATIME, 0x01, 0b11), (.WTIME, 0x03, 0b11),
   (.AILTL, 0x04, 0b11), (.AILTH, 0x05, 0b11), (.AIHTL, 0x06, 0b11),
   (.AIHTH, 0x07, 0b11), (.PERS, 0x0C, 0b11), (.CONFIG, 0x0D, 0b11),
   (.CONTROL, 0x0F, 0b11), (.ID, 0x12, 0b10), (.STATUS, 0x13, 0b10),
   (.CDATAL, 0x14, 0b10), (.CDATAH, 0x15, 0b10), (.RDATAL, 0x16, 0b10),
   (.RDATAH, 0x17, 0b10), (.GDATAL, 0x18, 0b10), (.GDATAH, 0x19, 0b10),
   (.BDATAL, 0x1A, 0b10), (.BDATAH, 0x1B, 0b10), (.CLRINT, 0x06, 0b11)]

/-- Dictionary lookup `REGISTERS[name]`. -/
def lookupReg (name : RegName) : Option (Nat × Nat) :=
  (REGISTERS.find? (fun p => p.1 == name)).map (fun p => p.2)

/-- Error outcomes of the driver. Each constructor stands for one concrete
`ValueError` (or `OverflowError`, or `AttributeError`) raise site of the
source; the Python message text is noted next to each. -/
inductive DriverError where
  /-- ValueError: Command type 0b10 is reserved ... (line 77). -/
  | reservedCommandType
  /-- ValueError: Command ... is not a valid command (line 78). -/
  | notACommand (c : RegName)
  /-- ValueError: Command ... is a read-only command (line 79). -/
  | readOnlyCommand (c : RegName)
  /-- ValueError: Register ... is not a valid register (line 92). -/
  | notARegister (r : RegName)
  /-- ValueError: Register ... is a write-only register (line 93). -/
  | writeOnlyRegister (r : RegName)
  /-- OverflowError from `value.to_bytes(1, "big")` when the value does not
  fit one byte (line 83). -/
  | overflowError
  /-- ValueError: Timing must be 2.4, 24, 50, 101, 154 or 700 ms (line 153). -/
  | timingOutOfRange
  /-- ValueError: Timing must be 1, 10, 42, 64 or 256 cycles (line 186). -/
  | cyclesOutOfRange
  /-- ValueError: Timing must be 2.4, 204, 614 or 29, 2450, 7400 ms (line 251). -/
  | waitTimingOutOfRange
  /-- ValueError: Threshold must be between 0 and 0xFFFF (lines 301, 319). -/
  | thresholdOutOfRange
  /-- ValueError: Persistance must be 1, 2, 3 or 5, 10, 15, ... 60 (line 336). -/
  | persistanceOutOfRange
  /-- ValueError: Gain must be 1, 4, 16 or 60 (line 380). -/
  | gainOutOfRange
  /-- ValueError: invalid literal for int() with base 2, raised by Python
  `int(s, 2)` inside the gain getter (line 365). -/
  | intParseError
  /-- ValueError: Glass attenuation factor must be at least 1 (line 516). -/
  | glassOutOfRange
  /-- AttributeError: the object has no attribute `_glass_attenuation`
  (line 511, before the setter ever ran). -/
  | attributeError
deriving DecidableEq

/-- One bus write: the command byte sent as the memory address, and the one
data byte of the payload. -/
structure Write where
  cmdByte : Nat
  data : Nat
deriving DecidableEq

/-- Line 77 of the source reads `if type == 0b10: raise ...`, comparing the
Python BUILTIN `type` (not the parameter `commType`) with `0b10`; that
comparison is always false, so the raise is dead code. This constant is that
condition. -/
def typeBuiltinIsReserved : Bool := false

/-- Python `value.to_bytes(1, "big")`: yields the byte when `value < 256`,
raises OverflowError otherwise (values passed in this driver are nonnegative). -/
def toBytes1 (value : Nat) : Except DriverError Nat :=
  if value < 256 then .ok value else .error .overflowError

/-- Model of `__sendCommand(command, value, commType)` (lines 69 to 84).
The source gives `commType` the default `0b01`; every internal caller uses
that default, and the model passes it explicitly. A successful call returns
the one bus write it performs; the command byte is
`0x80 + (commType << 5) + address`. -/
def sendCommand (command : RegName) (value : Nat) (commType : Nat) :
    Except DriverError Write :=
  if typeBuiltinIsReserved then .error .reservedCommandType
  else match lookupReg command with
    | none => .error (.notACommand command)
    | some ar =>
      if ar.2 == 0b10 then .error (.readOnlyCommand command)
      else match toBytes1 value with
        | .error e => .error e
        | .ok b => .ok ⟨0x80 + (commType <<< 5) + ar.1, b⟩

/-- Model of `__readRegister(register)` for the single-byte case
(lines 86 to 95); `regs` maps register address to the stored byte. -/
def readRegister (regs : Nat → Nat) (register : RegName) :
    Except DriverError Nat :=
  match lookupReg register with
  | none => .error (.notARegister register)
  | some ar =>
    if ar.2 == 0b01 then .error (.writeOnlyRegister register)
    else .ok (regs ar.1)

/-- Register targeted by a write: the low five address bits of the command
byte (the chip decodes the register address from those bits). -/
def regOfWrite (w : Write) : Nat := w.cmdByte % 0x20

/-- Chip-side effect of one write, assuming the register stores the last
written byte. -/
def applyWrite (regs : Nat → Nat) (w : Write) : Nat → Nat :=
  fun a => if a = regOfWrite w then w.data else regs a

/-- Chip-side effect of a sequence of writes, in order. -/
def applyWrites (regs : Nat → Nat) (ws : List Write) : Nat → Nat :=
  ws.foldl applyWrite regs

/-- Python `bin(n)` for a nonnegative `n`, as a list of characters:
the prefix `0b` followed by the binary digits, most significant first. -/
def pyBin (n : Nat) : List Char := '0' :: 'b' :: Nat.toDigits 2 n

/-- Python slice `s[-k:]` on a list of at least `k` characters. -/
def lastN (k : Nat) (cs : List Char) : List Char := cs.drop (cs.length - k)

/-- Python `int(s, 2)`: parses a nonempty string of binary digits, failing
on any other character. -/
def intBase2 (cs : List Char) : Option Nat :=
  if cs.isEmpty then none
  else cs.foldl
    (fun acc? c => acc?.bind (fun acc =>
      if c == '0' then some (2 * acc)
      else if c == '1' then some (2 * acc + 1) else none))
    (some 0)

/-- Python `bool(bin(config)[-2])` (line 347): the character of the bin
string at index `length - 2` (the string always has length at least three),
taken as a one-character string, whose truth value is its nonemptiness, so
this is true for every `config`. -/
def WLONG_ofConfig (config : Nat) : Bool :=
  ((pyBin config)[(pyBin config).length - 2]?).isSome

/-- Getter of the `WLONG` property (lines 342 to 347). -/
def WLONG_get (regs : Nat → Nat) : Except DriverError Bool := do
  let config ← readRegister regs .CONFIG
  pure (WLONG_ofConfig config)

/-- Setter of the `WLONG` property (lines 349 to 356): writes `value << 1`
to CONFIG. The isinstance check of line 355 always passes here because the
model input is already a boolean. -/
def WLONG_set (value : Bool) : Except DriverError Write :=
  sendCommand .CONFIG ((if value then 1 else 0) <<< 1) 0b01

/-- Getter of the `timing_ms` property (lines 131 to 144): dictionary from
the ATIME byte to milliseconds, default 2.4. -/
def timing_ms_get (regs : Nat → Nat) : Except DriverError ℚ := do
  let value ← readRegister regs .ATIME
  pure (match value with
    | 0xFF => (12 : ℚ) / 5
    | 0xF6 => 24
    | 0xD5 => 101
    | 0xC0 => 154
    | 0x00 => 700
    | _ => (12 : ℚ) / 5)

/-- Setter of the `timing_ms` property (lines 146 to 162). The validation
list of line 153 contains 50, but the encoding dictionary of lines 154
to 160 has no key 50, so 50 falls through to the dictionary default 1. -/
def timing_ms_set (timing : ℚ) : Except DriverError Write :=
  if timing ∉ ([12 / 5, 24, 50, 101, 154, 700] : List ℚ) then
    .error .timingOutOfRange
  else
    let timingValue : Nat :=
      if timing = 12 / 5 then 0xFF
      else if timing = 24 then 0xF6
      else if timing = 101 then 0xD5
      else if timing = 154 then 0xC0
      else if timing = 700 then 0x00
      else 1
    sendCommand .ATIME timingValue 0b01

/-- Getter of the `timing_cycles` property (lines 165 to 178): the source
builds a cycles dictionary from the ATIME byte but discards the result,
returning a second raw read of ATIME instead (line 178). -/
def timing_cycles_get (regs : Nat → Nat) : Except DriverError Nat := do
  let _value ← readRegister regs .ATIME
  readRegister regs .ATIME

/-- Setter of the `timing_cycles` property (lines 180 to 194): after
validation the source computes the encoded byte `timingValue` but then
sends the raw cycles value `timing` itself (line 194); the computed
`timingValue` is dead. -/
def timing_cycles_set (timing : Nat) : Except DriverError Write :=
  if timing ∉ [1, 10, 42, 64, 256] then .error .cyclesOutOfRange
  else
    let _timingValue : Nat :=
      if timing = 1 then 0xFF
      else if timing = 10 then 0xF6
      else if timing = 42 then 0xD5
      else if timing = 64 then 0xC0
      else if timing = 256 then 0x00
      else 1
    sendCommand .ATIME timing 0b01

/-- Getter of the `wait_time_ms` property (lines 225 to 243): reads WTIME,
then branches on the `WLONG` property; the `wlong` branch maps the byte to
2.4, 204, 614 ms and the other branch to 29, 2450, 7400 ms. -/
def wait_time_ms_get (regs : Nat → Nat) : Except DriverError ℚ := do
  let value ← readRegister regs .WTIME
  let wl ← WLONG_get regs
  if wl then
    pure (match value with
      | 0xFF => (12 : ℚ) / 5
      | 0xAB => 204
      | 0x00 => 614
      | _ => (12 : ℚ) / 5)
  else
    pure (match value with
      | 0xFF => (29 : ℚ)
      | 0xAB => 2450
      | 0x00 => 7400
      | _ => 1)

/-- Setter of the `wait_time_ms` property (lines 245 to 269): values 2.4,
204, 614 set `WLONG` to false and values 29, 2450, 7400 set it to true
(a CONFIG write), then the encoded byte is written to WTIME. -/
def wait_time_ms_set (timing : ℚ) : Except DriverError (List Write) :=
  if timing ∉ ([12 / 5, 204, 614] : List ℚ) ∧
      timing ∉ ([29, 2450, 7400] : List ℚ) then
    .error .waitTimingOutOfRange
  else if timing ∈ ([12 / 5, 204, 614] : List ℚ) then
    let timingValue : Nat :=
      if timing = 12 / 5 then 0xFF else if timing = 204 then 0xAB else 0x00
    do
      let wConfig ← WLONG_set false
      let wTime ← sendCommand .WTIME timingValue 0b01
      pure [wConfig, wTime]
  else
    let timingValue : Nat :=
      if timing = 29 then 0xFF else if timing = 2450 then 0xAB else 0x00
    do
      let wConfig ← WLONG_set true
      let wTime ← sendCommand .WTIME timingValue 0b01
      pure [wConfig, wTime]

/-- Getter of the `minThreshold` property (lines 288 to 293): reads the
registers named `AILT` and `AILTH` and combines low and high byte. -/
def minThreshold_get (regs : Nat → Nat) : Except DriverError Nat := do
  let lo ← readRegister regs .AILT
  let hi ← readRegister regs .AILTH
  pure (lo + (hi <<< 8))

/-- Setter of the `minThreshold` property (lines 295 to 304): range check,
then a write of the low byte to `AILT` and of the high byte to `AILTH`. -/
def minThreshold_set (threshold : Int) : Except DriverError (List Write) :=
  if threshold > 0xFFFF ∨ threshold < 0 then .error .thresholdOutOfRange
  else do
    let w1 ← sendCommand .AILT (threshold.toNat &&& 0xFF) 0b01
    let w2 ← sendCommand .AILTH ((threshold.toNat >>> 8) &&& 0xFF) 0b01
    pure [w1, w2]

/-- Getter of the `maxThreshold` property (lines 306 to 311). -/
def maxThreshold_get (regs : Nat → Nat) : Except DriverError Nat := do
  let lo ← readRegister regs .AIHT
  let hi ← readRegister regs .AIHTH
  pure (lo + (hi <<< 8))

/-- Setter of the `maxThreshold` property (lines 313 to 322). -/
def maxThreshold_set (threshold : Int) : Except DriverError (List Write) :=
  if threshold > 0xFFFF ∨ threshold < 0 then .error .thresholdOutOfRange
  else do
    let w1 ← sendCommand .AIHT (threshold.toNat &&& 0xFF) 0b01
    let w2 ← sendCommand .AIHTH ((threshold.toNat >>> 8) &&& 0xFF) 0b01
    pure [w1, w2]

/-- Setter of the `persistance` property (lines 334 to 338): accepts 1, 2, 3
or multiples of 5 from 5 to 60 and writes the value verbatim to PERS. -/
def persistance_set (persistance : Nat) : Except DriverError Write :=
  if persistance ∉ [1, 2, 3] ∧
      ¬(5 ≤ persistance ∧ persistance ≤ 60 ∧ persistance % 5 = 0) then
    .error .persistanceOutOfRange
  else sendCommand .PERS persistance 0b01

/-- Getter of the `gain` property (lines 360 to 372): takes the Python
slice `bin(control)[-2:]`, parses it with `int(_, 2)` and maps the two bits
to the gain. When the CONTROL byte is below 2 the slice still contains the
letter b of the `0b` prefix and the parse raises ValueError. -/
def gain_get (regs : Nat → Nat) : Except DriverError Nat := do
  let control ← readRegister regs .CONTROL
  match intBase2 (lastN 2 (pyBin control)) with
  | none => .error .intParseError
  | some gainBits =>
    pure (match gainBits with
      | 0b00 => 1
      | 0b01 => 4
      | 0b10 => 16
      | 0b11 => 60
      | _ => 1)

/-- Setter of the `gain` property (lines 374 to 387): validates against
1, 4, 16, 60 and writes the two-bit code to CONTROL. -/
def gain_set (value : Nat) : Except DriverError Write :=
  if value ∉ [1, 4, 16, 60] then .error .gainOutOfRange
  else
    let valueBits : Nat :=
      if value = 1 then 0b00
      else if value = 4 then 0b01
      else if value = 16 then 0b10
      else if value = 60 then 0b11
      else 0b00
    sendCommand .CONTROL valueBits 0b01

/-- ENABLE register bit: power on. -/
def ENABLE_PON : Nat := 0x01

/-- ENABLE register bit: RGBC ADC enable. -/
def ENABLE_AEN : Nat := 0x02

/-- Model of `__enableComm(value)` (lines 106 to 112). -/
def enableComm (value : Nat) : Except DriverError Write :=
  sendCommand .ENABLE value 0b01

/-- Model of `enable()` (lines 114 to 120): two consecutive ENABLE writes,
PON alone and then PON with AEN, with nothing in between. -/
def enable : Except DriverError (List Write) := do
  let w1 ← enableComm ENABLE_PON
  let w2 ← enableComm (ENABLE_PON ||| ENABLE_AEN)
  pure [w1, w2]

/-- Model of `disable()` (lines 122 to 127): one ENABLE write of 0x00. -/
def disable : Except DriverError (List Write) := do
  let w ← enableComm 0x00
  pure [w]

/-- Python `int(x)` on an exact rational: truncation toward zero. The
denominator of a `Rat` is positive, so dividing the absolute value of the
numerator by the denominator and reattaching the sign truncates toward
zero (plain integer division in Lean rounds down and would give
`pyInt (-5 / 2) = -3` instead of the Python result `-2`). -/
def pyInt (q : ℚ) : Int :=
  if q.num < 0 then -((-q.num) / (q.den : Int)) else q.num / (q.den : Int)

/-- Saturation ceiling of `colorTemperatureLux` (lines 474 to 479): digital
saturation 65535 when `256 - ATIME_MS > 63`, else analog saturation
`1024 * (256 - ATIME_MS)`; then the ripple reduction by one quarter when
`ATIME_MS < 150`. The source feeds the integration time in MILLISECONDS
into a formula whose DN40 original takes the ATIME register value. -/
def saturationCeiling (ATIME_MS : ℚ) : ℚ :=
  let device : ℚ :=
    if 256 - ATIME_MS > 63 then 65535 else 1024 * (256 - ATIME_MS)
  if ATIME_MS < 150 then device - device / 4 else device

/-- Arithmetic of the BODY of `colorTemperatureLux` from line 464 onward,
as a pure function of the four values bound by the unpacking of line 460
(named r, g, b, c there) and of the three configuration values read at
lines 461, 462 and 465. This is only the arithmetic: the full method,
including the `getColor` call that in fact always raises and the
unpacking that binds r to the clear reading and c to the blue reading, is
`colorTemperatureLux_method` below. Returns `(-1, -1)` when the value
named c exceeds the saturation ceiling; otherwise the DN40 lux and color
temperature, each truncated toward zero. The variable `c1` of line 489 is
computed by the source but never used. -/
def colorTemperatureLux (r g b c : Nat) (ATIME_MS : ℚ) (AGAIN : Nat)
    (GA : ℚ) : Int × Int :=
  let DF : ℚ := 310
  let DGF : ℚ := GA * DF
  let R_COEF : ℚ := 136 / 1000
  let G_COEF : ℚ := 1
  let B_COEF : ℚ := -(444 / 1000)
  let CT_COEF : ℚ := 3810
  let CT_OFFSET : ℚ := 1391
  let SATURATION := saturationCeiling ATIME_MS
  if (c : ℚ) > SATURATION then (-1, -1)
  else
    let ir : ℚ := ((r : ℚ) + (g : ℚ) + (b : ℚ) - (c : ℚ)) / 2
    let r1 := (r : ℚ) - ir
    let g1 := (g : ℚ) - ir
    let b1 := (b : ℚ) - ir
    let g2 := R_COEF * r1 + G_COEF * g1 + B_COEF * b1
    let CPL := ATIME_MS * (AGAIN : ℚ) / DGF
    let lux := g2 / CPL
    let colorTemp := CT_COEF * b1 / r1 + CT_OFFSET
    (pyInt lux, pyInt colorTemp)

/-- Instance attributes of the driver that the DN40 path touches:
`_glassAttenuation` is set to 1 by `__init__` (line 56) and read by
`colorTemperatureLux` (line 465); `_glass_attenuation` (note the different
spelling) is only ever written by the `glass_attenuation` setter (line 517)
and read by its getter (line 511), so it is absent until the setter runs. -/
structure DriverAttrs where
  _glassAttenuation : ℚ
  _glass_attenuation : Option ℚ
deriving DecidableEq

/-- Attribute state right after `__init__`. -/
def initAttrs : DriverAttrs := ⟨1, none⟩

/-- Getter of the `glass_attenuation` property (lines 502 to 511): reads the
attribute `_glass_attenuation`, AttributeError when it was never written. -/
def glass_attenuation_get (s : DriverAttrs) : Except DriverError ℚ :=
  match s._glass_attenuation with
  | some v => .ok v
  | none => .error .attributeError

/-- Setter of the `glass_attenuation` property (lines 513 to 517): rejects
values below 1, otherwise stores the attribute `_glass_attenuation`,
leaving `_glassAttenuation` untouched. -/
def glass_attenuation_set (s : DriverAttrs) (value : ℚ) :
    Except DriverError DriverAttrs :=
  if value < 1 then .error .glassOutOfRange
  else .ok ⟨s._glassAttenuation, some value⟩

/-- The DN40 computation as invoked on a driver instance: line 465 reads
the glass attenuation from the attribute `_glassAttenuation`. -/
def colorTemperatureLuxOf (s : DriverAttrs) (r g b c : Nat) (t : ℚ)
    (a : Nat) : Int × Int :=
  colorTemperatureLux r g b c t a s._glassAttenuation

/-- Model of `__readRegister(register, length=2)` (lines 86 to 101): after
the same name and access checks as the single-byte case, reads two
consecutive bytes starting at the register address and combines them
little-endian (byte at the address is the low byte). -/
def readRegister2 (regs : Nat → Nat) (register : RegName) :
    Except DriverError Nat :=
  match lookupReg register with
  | none => .error (.notARegister register)
  | some ar =>
    if ar.2 == 0b01 then .error (.writeOnlyRegister register)
    else .ok (regs ar.1 + (regs (ar.1 + 1) <<< 8))

/-- Model of `getColor()` (lines 426 to 436): four two-byte reads under the
names `CDATA`, `RDATA`, `GDATA`, `BDATA`, returned in the order clear,
red, green, blue. None of those four names is a key of `REGISTERS` (the
map defines `CDATAL` and so on, and the `DATA_REGISTERS` table of the
source is never consulted), so the first read always fails with the
unknown-register ValueError, whatever the register state. -/
def getColor (regs : Nat → Nat) :
    Except DriverError (Nat × Nat × Nat × Nat) := do
  let cd ← readRegister2 regs .CDATA
  let rd ← readRegister2 regs .RDATA
  let gd ← readRegister2 regs .GDATA
  let bd ← readRegister2 regs .BDATA
  pure (cd, rd, gd, bd)

/-- Model of the full method `colorTemperatureLux(self)` (lines 450 to
499). Line 460 reads `r, g, b, c = self.getColor()`: the tuple returned by
`getColor` is (clear, red, green, blue), so the positional unpacking binds
the name r to the CLEAR reading and the name c to the BLUE reading. Lines
461 and 462 read the integration time and the gain through their property
getters, line 465 reads the attribute `_glassAttenuation`, and the rest is
the arithmetic `colorTemperatureLux`. -/
def colorTemperatureLux_method (regs : Nat → Nat) (s : DriverAttrs) :
    Except DriverError (Int × Int) := do
  let rgbc ← getColor regs
  let r := rgbc.1
  let g := rgbc.2.1
  let b := rgbc.2.2.1
  let c := rgbc.2.2.2
  let ATIME_MS ← timing_ms_get regs
  let AGAIN ← gain_get regs
  pure (colorTemperatureLux r g b c ATIME_MS AGAIN s._glassAttenuation)

end TCS34725

namespace TCS34725

/-- Claim C1 fails on the code: `colorTemperatureLux` can never return the
claimed DN40 pair, on any register state and any instance attributes,
because its first step `getColor()` (line 460) passes the name `CDATA`
(then `RDATA`, `GDATA`, `BDATA`) to `__readRegister` and none of these is
a key of `REGISTERS` (the map defines `CDATAL` and so on, and the separate
`DATA_REGISTERS` table is never consulted), so every call raises the
unknown-register ValueError before any arithmetic. The second and third
conjuncts pin the cause: `CDATA` is absent from the register map and
`getColor` fails on a concrete state. The unpacking of line 460 moreover
binds the name r to the CLEAR reading and the name c to the BLUE reading
(see `colorTemperatureLux_method`), so even the arithmetic would be fed
permuted channels. -/
theorem C1_method_always_raises :
    (∀ (regs : Nat → Nat) (s : DriverAttrs),
      colorTemperatureLux_method regs s = .error (.notARegister .CDATA)) ∧
    lookupReg .CDATA = none ∧
    getColor (fun _ => 0) = .error (.notARegister .CDATA) :=
  ⟨fun regs s => rfl, rfl, rfl⟩

/-- Claim C2 fails on the code: with integration time 700 ms the branch
`256 - 700 > 63` is false, so the ANALOG formula applies and the ceiling is
`1024 * (256 - 700) = -454656`, not 65535; every sample, the claimed
boundary sample with clear 65535 included, satisfies `c > ceiling` and is
reported saturated as `(-1, -1)`. -/
theorem C2_saturation_700_rejects_everything :
    saturationCeiling 700 = -454656 ∧
    colorTemperatureLux 100 100 100 65535 700 1 1 = (-1, -1) ∧
    colorTemperatureLux 0 0 0 0 700 1 1 = (-1, -1) := by
  refine ⟨?_, ?_, ?_⟩ <;> norm_num [colorTemperatureLux, saturationCeiling]

/-- Claim C3 fails on the code: line 77 compares the Python builtin `type`
(not the parameter `commType`) with 0b10, a condition that is always false,
so a call with the reserved command type 0b10 is not rejected and the bus
write is performed with command byte `0x80 + (0b10 << 5) + 0x00 = 0xC0`. -/
theorem C3_reserved_commtype_unchecked :
    typeBuiltinIsReserved = false ∧
    sendCommand .ENABLE 0 0b10 = .ok ⟨0xC0, 0⟩ :=
  ⟨rfl, rfl⟩

/-- Claim C4 fails on the code: the cycles setter validates the cycles
value and computes the encoded byte, but then sends the raw cycles value
itself, so 10 cycles stores byte 0x0A where the shared encoding (used by
the ms setter, third conjunct) stores 0xF6; the value 256 does not fit one
byte and the write raises OverflowError; and after setting 10 cycles the ms
getter reads back the table default 2.4 instead of the matching 24 ms. -/
theorem C4_timing_cycles_raw_write :
    timing_cycles_set 10 = .ok ⟨0xA1, 10⟩ ∧
    timing_cycles_set 256 = .error .overflowError ∧
    timing_ms_set 24 = .ok ⟨0xA1, 0xF6⟩ ∧
    timing_ms_get (applyWrites (fun _ => 0) [⟨0xA1, 10⟩]) = .ok (12 / 5) := by
  refine ⟨rfl, rfl, ?_, rfl⟩
  rw [timing_ms_set]; norm_num
  rfl

/-- Claim C5 fails on the code: the threshold accessors pass the names
`AILT` and `AIHT`, which are not keys of the register map (the map has
`AILTL` and `AIHTL`), so every in-range set fails on the first byte with
the unknown-command error and performs no write, and every get fails with
the unknown-register error; only the out-of-range rejection of the claim
(second conjunct) behaves as stated. -/
theorem C5_threshold_unknown_register :
    minThreshold_set 0 = .error (.notACommand .AILT) ∧
    minThreshold_set 65536 = .error .thresholdOutOfRange ∧
    minThreshold_get (fun _ => 0) = .error (.notARegister .AILT) ∧
    maxThreshold_set 0 = .error (.notACommand .AIHT) :=
  ⟨rfl, rfl, rfl, rfl⟩

/-- Claim C6 fails on the code: setting gain 1 writes the two-bit code 0b00
to CONTROL, but the getter slices the last two characters of `bin(0)`,
which are `b0`, and `int(_, 2)` raises ValueError, so the round trip breaks
for gains 1 and 4 (CONTROL bytes 0 and 1); it holds for 16 and 60, and the
out-of-set rejection behaves as claimed. -/
theorem C6_gain_getter_crash :
    gain_set 1 = .ok ⟨0xAF, 0b00⟩ ∧
    gain_get (applyWrites (fun _ => 0) [⟨0xAF, 0b00⟩]) = .error .intParseError ∧
    gain_get (applyWrites (fun _ => 0) [⟨0xAF, 0b10⟩]) = .ok 16 ∧
    gain_set 2 = .error .gainOutOfRange :=
  ⟨rfl, rfl, rfl, rfl⟩

/-- Claim C7 fails on the code: the setter does follow the claimed tables
and flips WLONG (first two conjuncts: setting 29 writes CONFIG byte 2, then
WTIME byte 0xFF; setting 2.4 writes CONFIG byte 0), but the getter has the
two tables swapped relative to the setter (and its WLONG read is always
true), so reading back after setting 29 yields 2.4, breaking the round trip
for every value of the wlong-true table. -/
theorem C7_wait_time_tables_swapped :
    wait_time_ms_set 29 = .ok [⟨0xAD, 0x02⟩, ⟨0xA3, 0xFF⟩] ∧
    wait_time_ms_set (12 / 5) = .ok [⟨0xAD, 0x00⟩, ⟨0xA3, 0xFF⟩] ∧
    wait_time_ms_get (applyWrites (fun _ => 0) [⟨0xAD, 0x02⟩, ⟨0xA3, 0xFF⟩]) =
      .ok (12 / 5) := by
  refine ⟨?_, ?_, rfl⟩
  · rw [wait_time_ms_set]; norm_num
    rfl
  · rw [wait_time_ms_set]; norm_num
    rfl

/-- Claim C8 fails on the code: the `timing_ms` setter accepts 50, a value
outside the legal enumerated set, because its validation list contains 50
while its encoding dictionary does not, so 50 is silently coerced to the
dictionary default byte 0x01 and written; reading back then yields the
getter default 2.4. Other enumerated setters, persistance for example,
do reject out-of-set values. -/
theorem C8_timing_ms_accepts_50 :
    timing_ms_set 50 = .ok ⟨0xA1, 0x01⟩ ∧
    timing_ms_get (applyWrites (fun _ => 0) [⟨0xA1, 0x01⟩]) = .ok (12 / 5) ∧
    persistance_set 4 = .error .persistanceOutOfRange := by
  refine ⟨?_, rfl, rfl⟩
  rw [timing_ms_set]; norm_num
  rfl

/-- Claim C9: `enable` performs exactly two ENABLE writes back to back,
first PON alone (0x01) and then PON with AEN (0x03), in that order;
`disable` performs the single ENABLE write 0x00, and applying it leaves the
ENABLE register (address 0x00) at 0, the Disabled state, whatever the prior
register state was. -/
theorem C9_enable_disable_sequence :
    enable = .ok [⟨0xA0, 0x01⟩, ⟨0xA0, 0x03⟩] ∧
    disable = .ok [⟨0xA0, 0x00⟩] ∧
    ∀ regs : Nat → Nat, applyWrites regs [⟨0xA0, 0x00⟩] 0x00 = 0 := by
  refine ⟨rfl, rfl, fun regs => ?_⟩
  simp [applyWrites, applyWrite, regOfWrite]

/-- Claim C10: a successful `glass_attenuation` assignment (any value at
least 1) writes only the attribute `_glass_attenuation` and leaves
`_glassAttenuation`, the attribute `colorTemperatureLux` actually reads,
unchanged, hence at the constructor value 1 on a fresh instance; and
reading `glass_attenuation` before any successful assignment fails with
AttributeError. -/
theorem C10_glass_attenuation_decoupled (s : DriverAttrs) (v : ℚ)
    (hv : 1 ≤ v) :
    glass_attenuation_set s v = .ok ⟨s._glassAttenuation, some v⟩ ∧
    (∀ r g b c t a, colorTemperatureLuxOf ⟨s._glassAttenuation, some v⟩ r g b c t a
        = colorTemperatureLuxOf s r g b c t a) ∧
    initAttrs._glassAttenuation = 1 ∧
    glass_attenuation_get initAttrs = .error .attributeError := by
  refine ⟨?_, fun r g b c t a => rfl, rfl, rfl⟩
  rw [glass_attenuation_set, if_neg (not_lt.mpr hv)]

/-- Witness for C10 on a fresh instance with the assignment of 2. -/
theorem C10_glass_attenuation_decoupled_witness :
    (1 : ℚ) ≤ 2 ∧
    (glass_attenuation_set initAttrs 2 = .ok ⟨initAttrs._glassAttenuation, some 2⟩ ∧
     (∀ r g b c t a, colorTemperatureLuxOf ⟨initAttrs._glassAttenuation, some 2⟩ r g b c t a
        = colorTemperatureLuxOf initAttrs r g b c t a) ∧
     initAttrs._glassAttenuation = 1 ∧
     glass_attenuation_get initAttrs = .error .attributeError) :=
  ⟨by norm_num, C10_glass_attenuation_decoupled initAttrs 2 (by norm_num)⟩

end TCS34725
